import Mathlib

/-
  Shallow embedding of the pooled-session PDF generator
  (BrowserPool / RPCHandler, src/src/browser.ts and src/src/rpc.ts,
  with the BrowserManager revision from src/unnamed/part_003).

  Remote-engine effects (connect, newPage, page.close, page.goto/reload,
  page navigation during release) are modelled by explicit outcome
  parameters of type Except String _, standing for the resolved or
  rejected promise of the corresponding remote call.  Page handles are
  natural numbers.  Clocks are explicit parameters: performance.now()
  readings (monotonic, ms since process start) and Date.now() readings
  (wall clock, ms since epoch) are passed separately, exactly as the
  source reads them.
-/

/-- One pool slot, mirroring interface PooledPage of src/src/browser.ts:
page (opaque handle, here a Nat), inUse, lastUsed, id. -/
structure PooledPage where
  page : Nat
  inUse : Bool
  lastUsed : Nat
  id : String
deriving DecidableEq

/-- The mutable fields of class BrowserPool: browser (null or a
connection handle), pool, connecting, keepaliveInterval (null or a
timer handle). -/
structure PoolState where
  browser : Option Nat
  pool : List PooledPage
  connecting : Bool
  keepaliveInterval : Option Nat
deriving DecidableEq

/-- POOL_SIZE = 10 (src/src/browser.ts line 18). -/
def POOL_SIZE : Nat := 10

/-- MAX_WAIT_MS = 5000 (src/src/browser.ts line 19). -/
def MAX_WAIT_MS : Nat := 5000

/-- The state of BrowserPool right after construction, and right after
the teardown part of handleBrowserDisconnection: no browser, empty
pool, not connecting, no keepalive timer. -/
def emptyState : PoolState :=
  { browser := none, pool := [], connecting := false, keepaliveInterval := none }

/-- The scan-and-mark step of acquirePage (src/src/browser.ts lines
190-196): find the first slot with inUse == false, set inUse := true
and lastUsed := now, return its page handle together with the updated
pool.  Returns none when every slot is in use. -/
def markFirstFree (now : Nat) : List PooledPage → Option (Nat × List PooledPage)
  | [] => none
  | p :: rest =>
    if p.inUse then
      (markFirstFree now rest).map (fun r => (r.1, p :: r.2))
    else
      some (p.page, { p with inUse := true, lastUsed := now } :: rest)

/-- The acquirePage wait loop (src/src/browser.ts lines 185-208).
startTime is performance.now() at entry (perfStart); the loop body at
iteration k reads Date.now() as wallStart + 50 * k (the 50 ms sleep at
the end of each failed iteration advances real time).  The timeout
check is the source's `Date.now() - startTime > MAX_WAIT_MS`, i.e. it
subtracts the performance.now() start from a Date.now() reading;
written additively to avoid truncated subtraction.  fuel bounds the
number of loop iterations the embedding unrolls; the returned Nat is
the iteration index at which the loop exited. -/
def acquireAux (perfStart wallStart : Nat) :
    Nat → List PooledPage → Nat → List PooledPage × Except String Nat × Nat
  | 0, pool, k => (pool, Except.error "fuel exhausted", k)
  | fuel + 1, pool, k =>
    match markFirstFree (wallStart + 50 * k) pool with
    | some r => (r.2, Except.ok r.1, k)
    | none =>
      if wallStart + 50 * k > perfStart + MAX_WAIT_MS then
        (pool, Except.error "Timeout waiting for available page", k)
      else
        acquireAux perfStart wallStart fuel pool (k + 1)

/-- BrowserPool.acquirePage lifted to the whole state. -/
def acquirePage (s : PoolState) (perfStart wallStart fuel : Nat) :
    PoolState × Except String Nat × Nat :=
  ({ s with pool := (acquireAux perfStart wallStart fuel s.pool 0).1 },
   (acquireAux perfStart wallStart fuel s.pool 0).2.1,
   (acquireAux perfStart wallStart fuel s.pool 0).2.2)

/-- BrowserPool.replacePage (src/src/browser.ts lines 210-228) acting on
the first slot whose page equals h (the slot object replacePage is
handed is always found that way by its callers).  The old page's close
is best-effort (its outcome never alters the state, so it is not a
parameter); rn is the outcome of createPage for the replacement.  On
success the slot keeps its id and gets the new page, inUse := false,
lastUsed := now; on failure the slot is left as it was and the error
propagates.  A pool without a matching slot is returned unchanged. -/
def replaceInPool (h : Nat) (rn : Except String Nat) (now : Nat) :
    List PooledPage → List PooledPage × Except String Unit
  | [] => ([], Except.ok ())
  | p :: rest =>
    if p.page = h then
      match rn with
      | Except.ok np =>
        ({ page := np, inUse := false, lastUsed := now, id := p.id } :: rest, Except.ok ())
      | Except.error e => (p :: rest, Except.error e)
    else
      (p :: (replaceInPool h rn now rest).1, (replaceInPool h rn now rest).2)

/-- BrowserPool.handlePageDisconnection (src/src/browser.ts lines
62-73): find the slot owning the failed page (by page reference) and
replace it; a replacement failure is caught and only logged, so the
function itself never rejects. -/
def handlePageDisconnection (s : PoolState) (h : Nat) (rn : Except String Nat) (now : Nat) :
    PoolState :=
  { s with pool := (replaceInPool h rn now s.pool).1 }

/-- BrowserPool.releasePage (src/src/browser.ts lines 230-249) on the
pool list: find the slot owning page h; resetOk is the combined outcome
of the reset navigation (goto about:blank + reload).  On reset success
mark the slot free and stamp lastUsed; on reset failure fall through to
replacePage (inlined: new page on rn success, propagated error and
untouched slot on rn failure).  When no slot owns h the function does
nothing and returns normally. -/
def releaseInPool (h : Nat) (resetOk : Bool) (rn : Except String Nat) (now : Nat) :
    List PooledPage → List PooledPage × Except String Unit
  | [] => ([], Except.ok ())
  | p :: rest =>
    if p.page = h then
      if resetOk then
        ({ p with inUse := false, lastUsed := now } :: rest, Except.ok ())
      else
        match rn with
        | Except.ok np =>
          ({ page := np, inUse := false, lastUsed := now, id := p.id } :: rest, Except.ok ())
        | Except.error e => (p :: rest, Except.error e)
    else
      (p :: (releaseInPool h resetOk rn now rest).1, (releaseInPool h resetOk rn now rest).2)

/-- BrowserPool.releasePage lifted to the whole state. -/
def releasePage (s : PoolState) (h : Nat) (resetOk : Bool) (rn : Except String Nat) (now : Nat) :
    PoolState × Except String Unit :=
  ({ s with pool := (releaseInPool h resetOk rn now s.pool).1 },
   (releaseInPool h resetOk rn now s.pool).2)

/-- Environment of one BrowserPool.initialize run: the outcome of
puppeteer.connect (a connection handle on success), the outcome of the
i-th createPage call (a fresh page handle on success), and the
Date.now() reading used for lastUsed stamps. -/
structure InitEnv where
  connectResult : Except String Nat
  newPageResult : Nat → Except String Nat
  now : Nat

/-- The page-building loop of initialize (src/src/browser.ts lines
136-145): for i in [0, POOL_SIZE) create a page and push a fresh free
slot; the first createPage failure aborts the loop, leaving the slots
already pushed in the pool, and propagates. -/
def buildPages (env : InitEnv) : Nat → Nat → List PooledPage → List PooledPage × Except String Unit
  | 0, _, pool => (pool, Except.ok ())
  | n + 1, i, pool =>
    match env.newPageResult i with
    | Except.error e => (pool, Except.error e)
    | Except.ok pg =>
      buildPages env n (i + 1)
        (pool ++ [{ page := pg, inUse := false, lastUsed := env.now, id := "page_" ++ toString i }])

/-- BrowserPool.initialize (src/src/browser.ts lines 106-155).  No-op
when a browser already exists or connecting is set.  Otherwise: set
connecting; connect (a connect failure propagates, with connecting
reset by the finally block); on connect success store the browser
handle, start the keepalive timer, then build POOL_SIZE pages; a page
failure propagates.  The catch block only logs, so neither browser nor
the partially built pool is cleaned up on failure; the finally block
resets connecting on every path.  (The source method is named
initialize; renamed initPool here.) -/
def initPool (s : PoolState) (env : InitEnv) : PoolState × Except String Unit :=
  if s.browser.isSome || s.connecting then (s, Except.ok ())
  else
    match env.connectResult with
    | Except.error e => ({ s with connecting := false }, Except.error e)
    | Except.ok b =>
      ({ s with browser := some b, keepaliveInterval := some 0,
                pool := (buildPages env POOL_SIZE 0 s.pool).1, connecting := false },
       (buildPages env POOL_SIZE 0 s.pool).2)

/-- The close sweep of handleBrowserDisconnection (src/src/browser.ts
lines 164-170): every pooled page gets one close attempt; both a
resolved and a rejected close continue with the next slot (the
rejection is swallowed by .catch and the surrounding try/catch).
Returns the pages that were close-attempted, in order. -/
def closeAllPages (closeRes : Nat → Except String Unit) : List PooledPage → List Nat
  | [] => []
  | p :: rest =>
    match closeRes p.page with
    | Except.ok _ => p.page :: closeAllPages closeRes rest
    | Except.error _ => p.page :: closeAllPages closeRes rest

/-- BrowserPool.handleBrowserDisconnection (src/src/browser.ts lines
157-183): clear the keepalive timer, best-effort close every pooled
page, reset browser := null, pool := [], connecting := false (together:
emptyState), then run initialize once; its failure is rethrown to the
caller.  Returns the new state, the propagated outcome, and the list of
close-attempted pages. -/
def handleBrowserDisconnection (s : PoolState) (closeRes : Nat → Except String Unit)
    (env : InitEnv) : PoolState × Except String Unit × List Nat :=
  ((initPool emptyState env).1, (initPool emptyState env).2, closeAllPages closeRes s.pool)

/-- Observable pool events of one withPage run. -/
inductive PoolEvent where
  | acquired (page : Nat)
  | released (page : Nat)
deriving DecidableEq

/-- True exactly on acquired events. -/
def isAcquiredEvent : PoolEvent → Bool
  | PoolEvent.acquired _ => true
  | PoolEvent.released _ => false

/-- True exactly on released events. -/
def isReleasedEvent : PoolEvent → Bool
  | PoolEvent.acquired _ => false
  | PoolEvent.released _ => true

/-- BrowserPool.withPage (src/src/browser.ts lines 251-274): initialize
if no browser; acquirePage (an acquire failure rejects withPage with no
release); run the action (its outcome is the parameter actionOutcome);
in the finally block releasePage runs on every exit path before the
outcome reaches the caller.  Per JS semantics an error thrown by the
finally block supersedes the action's outcome.  The event list records
the successful acquire and the release call, in order. -/
def withPage {A : Type} (s : PoolState) (env : InitEnv) (perfStart wallStart fuel : Nat)
    (actionOutcome : Except String A) (resetOk : Bool) (rn : Except String Nat) (now : Nat) :
    PoolState × Except String A × List PoolEvent :=
  match (if s.browser.isNone then initPool s env else (s, Except.ok ())) with
  | (s1, Except.error e) => (s1, Except.error e, [])
  | (s1, Except.ok _) =>
    match acquirePage s1 perfStart wallStart fuel with
    | (s2, Except.error e, _) => (s2, Except.error e, [])
    | (s2, Except.ok pg, _) =>
      match releasePage s2 pg resetOk rn now with
      | (s3, Except.ok _) =>
        (s3, actionOutcome, [PoolEvent.acquired pg, PoolEvent.released pg])
      | (s3, Except.error e) =>
        (s3, Except.error e, [PoolEvent.acquired pg, PoolEvent.released pg])

/-- One entry of the BrowserManager revision's page pool
(src/unnamed/part_003): just the page handle and the inUse flag. -/
structure BMEntry where
  page : Nat
  inUse : Bool
deriving DecidableEq

/-- The scan-and-mark step of BrowserManager.getAvailablePage. -/
def bmMarkFirstFree : List BMEntry → Option (Nat × List BMEntry)
  | [] => none
  | p :: rest =>
    if p.inUse then
      (bmMarkFirstFree rest).map (fun r => (r.1, p :: r.2))
    else
      some (p.page, { p with inUse := true } :: rest)

/-- BrowserManager.getAvailablePage (src/unnamed/part_003 lines 50-65):
mark and return the first free page; when the pool is exhausted, create
a brand-new page (handle freshPage), push it as a new in-use entry, and
return it. -/
def getAvailablePage (pages : List BMEntry) (freshPage : Nat) : List BMEntry × Nat :=
  match bmMarkFirstFree pages with
  | some r => (r.2, r.1)
  | none => (pages ++ [{ page := freshPage, inUse := true }], freshPage)

/-- The id field of an RPC request: string | number. -/
inductive RpcId where
  | str (s : String)
  | num (n : Int)
deriving DecidableEq

/-- One res.json payload of RPCHandler.handleRequest. -/
inductive RpcResponse where
  | result (value : String) (id : RpcId)
  | err (code : Int) (message : String) (id : RpcId)
deriving DecidableEq

/-- retries: 4 in the async-retry options of src/src/rpc.ts (5 attempts
total: 1 initial + 4 retries). -/
def RPC_RETRIES : Nat := 4

/-- The async-retry driver as configured in src/src/rpc.ts: run attempt
k; a success resolves immediately; a failure retries with the next
attempt while retries remain, and the last attempt's error propagates.
Returns the outcome together with the number of attempts consumed
(counting from attempt index k). -/
def retryRun {A : Type} (outcomes : Nat → Except String A) (k : Nat) :
    Nat → Except String A × Nat
  | 0 => (outcomes k, k + 1)
  | r + 1 =>
    match outcomes k with
    | Except.ok v => (Except.ok v, k + 1)
    | Except.error _ => retryRun outcomes (k + 1) r

/-- The delay async-retry inserts before retry attempt n, from the
options of src/src/rpc.ts: min(minTimeout * factor ^ n, maxTimeout)
with minTimeout = 0 and maxTimeout = 0. -/
def retryDelay (minTimeout maxTimeout factor n : Nat) : Nat :=
  min (minTimeout * factor ^ n) maxTimeout

/-- The standard base64 alphabet used by Buffer.toString with base64. -/
def base64Alphabet : String :=
  "ABCDEFGHIJKLMNOPQRSTUVWXYZabcdefghijklmnopqrstuvwxyz0123456789+/"

/-- The base64 digit for a 6-bit value. -/
def b64Char (n : Nat) : Char := base64Alphabet.toList.getD n 'A'

/-- Buffer.from(pdf).toString with base64: standard base64 of a byte
list, with padding. -/
def base64Encode : List Nat → String
  | [] => ""
  | [a] => String.mk [b64Char (a / 4), b64Char (a % 4 * 16)] ++ "=="
  | [a, b] =>
    String.mk [b64Char (a / 4), b64Char (a % 4 * 16 + b / 16), b64Char (b % 16 * 4)] ++ "="
  | a :: b :: c :: rest =>
    String.mk [b64Char (a / 4), b64Char (a % 4 * 16 + b / 16),
               b64Char (b % 16 * 4 + c / 64), b64Char (c % 64)] ++ base64Encode rest

/-- RPCHandler.handleRequest (src/src/rpc.ts lines 24-64) for a request
with the given method and id.  outcomes k is the result of the k-th
browserPool.capturePDF attempt (the PDF as a byte list on success).
generatePdf runs capturePDF under retry (RPC_RETRIES retries, zero
delays) and answers with a single res.json: the base64 PDF result on
success, or the error envelope with code -32603 and the thrown error's
message.  An unknown method throws and is answered through the same
catch block.  Express's res.json leaves the HTTP status at 200.
Returns (HTTP status, list of res.json calls made). -/
def handleRequest (method : String) (id : RpcId) (outcomes : Nat → Except String (List Nat)) :
    Nat × List RpcResponse :=
  if method = "generatePdf" then
    match (retryRun outcomes 0 RPC_RETRIES).1 with
    | Except.ok pdf => (200, [RpcResponse.result (base64Encode pdf) id])
    | Except.error e => (200, [RpcResponse.err (-32603) e id])
  else
    (200, [RpcResponse.err (-32603) ("Unknown method: " ++ method) id])

/-- A saturated pool: POOL_SIZE slots, every one inUse. -/
def pool10busy : List PooledPage :=
  (List.range 10).map (fun i => { page := i, inUse := true, lastUsed := 0, id := "page_" ++ toString i })

/-- A saturated BrowserManager pool of 10 entries. -/
def bmFullPool : List BMEntry := (List.range 10).map (fun i => { page := i, inUse := true })

/-- An InitEnv whose connect succeeds (handle 7) and whose first
createPage call fails. -/
def envPageFail : InitEnv :=
  { connectResult := Except.ok 7, newPageResult := fun _ => Except.error "newPage failed", now := 0 }

/-- An InitEnv where everything succeeds: connect gives handle 1, the
i-th createPage gives page handle i + 100. -/
def envAllOk : InitEnv :=
  { connectResult := Except.ok 1, newPageResult := fun i => Except.ok (i + 100), now := 0 }

/-- Claim C2 (code bug): with every slot in use, acquirePage is
specified to keep waiting and fail with the pool timeout only at about
MAX_WAIT_MS = 5000 ms, measured from a monotonic-clock start.  The
source records startTime with performance.now() (monotonic, ms since
process start) but tests `Date.now() - startTime > MAX_WAIT_MS` with
Date.now() (wall clock, ms since epoch), so with realistic clock
readings (wall 1760000000000, monotonic 100000) the loop throws the
timeout on its very first iteration (exit index 0, elapsed wait 0 ms).
The second conjunct shows the intended contract: with a single
consistent clock the same loop waits and times out only at iteration
101, i.e. after 5050 ms ≈ MAX_WAIT_MS, never earlier. -/
theorem acquirePage_clock_mixing_bug :
    acquireAux 100000 1760000000000 1 pool10busy 0
      = (pool10busy, Except.error "Timeout waiting for available page", 0)
    ∧ acquireAux 100000 100000 102 pool10busy 0
      = (pool10busy, Except.error "Timeout waiting for available page", 101) := by
  constructor <;> rfl

/-- Claim C3 (counterexample): the BrowserManager revision's acquire
(getAvailablePage, src/unnamed/part_003) violates the capacity
invariant: on a saturated pool of N = 10 slots it pushes an eleventh
slot, so an operation does add a slot and the pool exceeds N. -/
theorem pool_exceeds_capacity :
    bmFullPool.length = 10 ∧ (getAvailablePage bmFullPool 99).1.length = 11 := by
  constructor <;> rfl

/-- Claim C6 (counterexample): starting from the freshly constructed
state, an initialize run whose connect succeeds (handle 7) but whose
first page creation fails propagates the error, yet retains the
connection object (browser = some 7) and the started keepalive timer —
the state is not left Disconnected as the claim requires. -/
theorem initPool_failure_keeps_connection :
    (initPool emptyState envPageFail).2 = Except.error "newPage failed"
    ∧ (initPool emptyState envPageFail).1.browser = some 7
    ∧ (initPool emptyState envPageFail).1.keepaliveInterval = some 0 := by
  refine ⟨rfl, rfl, rfl⟩

/-- Claim C9: initialize is idempotent.  A call made while the
connection state is Connecting (connecting = true) or Connected
(browser present) returns without any effect and without error, and
composing initialize with itself from such a state equals a single
initialize. -/
theorem initPool_idempotent (s : PoolState) (env env2 : InitEnv)
    (h : s.browser.isSome = true ∨ s.connecting = true) :
    initPool s env = (s, Except.ok ())
    ∧ initPool (initPool s env).1 env2 = initPool s env2 := by
  have hc : (s.browser.isSome || s.connecting) = true := by
    rcases h with h | h <;> simp [h]
  constructor
  · simp [initPool, hc]
  · simp [initPool, hc]

/-- A pool with a single free slot. -/
def poolOneFree : List PooledPage :=
  [{ page := 5, inUse := false, lastUsed := 0, id := "page_0" }]

/-- The close sweep visits exactly the pooled pages, in order, no
matter which closes fail: close errors are swallowed. -/
theorem closeAllPages_eq_map (f : Nat → Except String Unit) (l : List PooledPage) :
    closeAllPages f l = l.map (fun p => p.page) := by
  induction l with
  | nil => rfl
  | cons p rest ih => cases hf : f p.page <;> simp [closeAllPages, hf, ih]

/-- markFirstFree never changes the number of slots. -/
theorem markFirstFree_length (now : Nat) (pool : List PooledPage) :
    ∀ r, markFirstFree now pool = some r → r.2.length = pool.length := by
  induction pool with
  | nil => intro r h; cases h
  | cons p rest ih =>
    intro r h
    unfold markFirstFree at h
    by_cases hp : p.inUse
    · rw [if_pos hp] at h
      cases hm : markFirstFree now rest with
      | none => rw [hm] at h; cases h
      | some r0 =>
        rw [hm, Option.map_some'] at h
        injection h with h2
        subst h2
        simp [ih r0 hm]
    · rw [if_neg hp] at h
      injection h with h2
      subst h2
      simp

/-- releasePage never changes the number of slots, on every outcome. -/
theorem releaseInPool_length (h : Nat) (resetOk : Bool) (rn : Except String Nat) (now : Nat)
    (pool : List PooledPage) :
    (releaseInPool h resetOk rn now pool).1.length = pool.length := by
  induction pool with
  | nil => rfl
  | cons p rest ih =>
    by_cases hp : p.page = h
    · cases resetOk <;> cases rn <;> simp [releaseInPool, hp]
    · simp [releaseInPool, hp, ih]

/-- replacePage never changes the number of slots, on every outcome. -/
theorem replaceInPool_length (h : Nat) (rn : Except String Nat) (now : Nat)
    (pool : List PooledPage) :
    (replaceInPool h rn now pool).1.length = pool.length := by
  induction pool with
  | nil => rfl
  | cons p rest ih =>
    by_cases hp : p.page = h
    · cases rn <;> simp [replaceInPool, hp]
    · simp [replaceInPool, hp, ih]

/-- A successful page-building loop adds exactly its count of slots. -/
theorem buildPages_length (env : InitEnv) :
    ∀ n i pool, (buildPages env n i pool).2 = Except.ok () →
      (buildPages env n i pool).1.length = pool.length + n := by
  intro n
  induction n with
  | zero => intro i pool _; simp [buildPages]
  | succ n ih =>
    intro i pool hok
    unfold buildPages at hok ⊢
    cases he : env.newPageResult i with
    | error e => rw [he] at hok; cases hok
    | ok pg =>
      rw [he] at hok
      have h2 := ih (i + 1)
        (pool ++ [{ page := pg, inUse := false, lastUsed := env.now, id := "page_" ++ toString i }])
        hok
      show (buildPages env n (i + 1)
        (pool ++ [{ page := pg, inUse := false, lastUsed := env.now,
                    id := "page_" ++ toString i }])).1.length = pool.length + (n + 1)
      rw [h2]
      simp [List.length_append]
      omega

/-- Claim C3 (amended): in the BrowserPool revision the invariant does
hold: a successful initialize from the fresh state builds exactly
POOL_SIZE = 10 slots; acquire's scan-and-mark, release, and replace all
preserve the slot count on every outcome; and the number of slots with
inUse = true is always between 0 and the pool size.  (The
counterexample pool_exceeds_capacity shows the claim as frozen fails on
the BrowserManager revision, whose acquire pushes an extra slot when
the pool is exhausted.) -/
theorem pool_capacity_invariant (env : InitEnv) (pool : List PooledPage)
    (h now : Nat) (resetOk : Bool) (rn : Except String Nat) :
    ((initPool emptyState env).2 = Except.ok () →
      (initPool emptyState env).1.pool.length = POOL_SIZE)
    ∧ (∀ r, markFirstFree now pool = some r → r.2.length = pool.length)
    ∧ (releaseInPool h resetOk rn now pool).1.length = pool.length
    ∧ (replaceInPool h rn now pool).1.length = pool.length
    ∧ pool.countP (fun p => p.inUse) ≤ pool.length := by
  refine ⟨?_, markFirstFree_length now pool, releaseInPool_length h resetOk rn now pool,
    replaceInPool_length h rn now pool, List.countP_le_length _⟩
  intro hok
  cases he : env.connectResult with
  | error e => simp [initPool, emptyState, he] at hok
  | ok b =>
    simp only [initPool, emptyState, he] at hok ⊢
    simp only [Option.isSome_none, Bool.false_or, if_false, Bool.or_self] at hok ⊢
    have h2 := buildPages_length env POOL_SIZE 0 [] hok
    simpa using h2

/-- Witness for pool_capacity_invariant: a successful initialize yields
10 slots; marking, then releasing, preserve the one-slot pool's size. -/
theorem pool_capacity_invariant_witness :
    (initPool emptyState envAllOk).1.pool.length = POOL_SIZE
    ∧ [({ page := 5, inUse := true, lastUsed := 1, id := "page_0" } : PooledPage)].length
        = poolOneFree.length
    ∧ (releaseInPool 5 true (Except.ok 50) 1 poolOneFree).1.length = poolOneFree.length := by
  have H := pool_capacity_invariant envAllOk poolOneFree 5 1 true (Except.ok 50)
  exact ⟨H.1 rfl, H.2.1 (5, [{ page := 5, inUse := true, lastUsed := 1, id := "page_0" }]) rfl,
    H.2.2.1⟩

/-- Claim C5: on detected connection loss, handleBrowserDisconnection
attempts one close per pooled session in order (close errors are
ignored, by closeAllPages_eq_map for every closeRes), resets the state
to emptyState — keepalive timer cancelled, pool cleared, browser
dropped — and then performs exactly one bounded initialize attempt with
no backoff, whose outcome (in particular its error, when the attempt is
exhausted) is exactly what propagates to the caller; the supervisor
performs no further recovery. -/
theorem disconnection_recovery (s : PoolState) (closeRes : Nat → Except String Unit)
    (env : InitEnv) :
    (handleBrowserDisconnection s closeRes env).2.2 = s.pool.map (fun p => p.page)
    ∧ ((handleBrowserDisconnection s closeRes env).1,
       (handleBrowserDisconnection s closeRes env).2.1) = initPool emptyState env
    ∧ emptyState.browser = none ∧ emptyState.pool = []
    ∧ emptyState.connecting = false ∧ emptyState.keepaliveInterval = none :=
  ⟨closeAllPages_eq_map closeRes s.pool, rfl, rfl, rfl, rfl, rfl⟩

/-- Claim C6 (amended): when initialize fails, the error propagates to
the caller and the connecting flag is false afterwards; but the state
is not reset to Disconnected — whenever the connect step succeeded, the
connection object stays installed in the state (and with it the started
keepalive timer and any slots already built). -/
theorem initPool_failure_propagates (s : PoolState) (env : InitEnv) (e : String)
    (h0 : s.browser = none) (h1 : s.connecting = false)
    (_he : (initPool s env).2 = Except.error e) :
    (initPool s env).1.connecting = false
    ∧ ∀ b, env.connectResult = Except.ok b → (initPool s env).1.browser = some b := by
  have hc : (s.browser.isSome || s.connecting) = false := by simp [h0, h1]
  cases henv : env.connectResult with
  | error e2 =>
    constructor
    · simp [initPool, hc, henv]
    · intro b hb
      simp at hb
  | ok b0 =>
    constructor
    · simp [initPool, hc, henv]
    · intro b hb
      injection hb with h2
      subst h2
      simp [initPool, hc, henv]

/-- Witness for initPool_failure_propagates at the concrete failing
run of envPageFail. -/
theorem initPool_failure_propagates_witness :
    (initPool emptyState envPageFail).1.connecting = false
    ∧ (initPool emptyState envPageFail).1.browser = some 7 := by
  have H := initPool_failure_propagates emptyState envPageFail "newPage failed" rfl rfl rfl
  exact ⟨H.1, H.2 7 rfl⟩

/-- Claim C4: releasing a handle owned by some slot (the slot at the
first position owning it), when release returns normally, leaves that
slot free (inUse = false), with lastUsed stamped, its id kept, and
holding exactly one usable session: the same session when the reset to
the neutral target succeeded, or the freshly created replacement
session when the reset failed; all other slots keep their positions. -/
theorem releasePage_slot_usable (pre suf : List PooledPage) (p : PooledPage)
    (resetOk : Bool) (rn : Except String Nat) (now : Nat)
    (hpre : ∀ q ∈ pre, q.page ≠ p.page)
    (hok : (releaseInPool p.page resetOk rn now (pre ++ p :: suf)).2 = Except.ok ()) :
    ∃ p', (releaseInPool p.page resetOk rn now (pre ++ p :: suf)).1 = pre ++ p' :: suf
      ∧ p'.inUse = false ∧ p'.lastUsed = now ∧ p'.id = p.id
      ∧ ((resetOk = true ∧ p'.page = p.page)
         ∨ (resetOk = false ∧ ∃ np, rn = Except.ok np ∧ p'.page = np)) := by
  induction pre with
  | nil =>
    cases resetOk with
    | true =>
      refine ⟨{ p with inUse := false, lastUsed := now }, ?_, rfl, rfl, rfl, Or.inl ⟨rfl, rfl⟩⟩
      simp [releaseInPool]
    | false =>
      cases rn with
      | ok np =>
        refine ⟨{ page := np, inUse := false, lastUsed := now, id := p.id }, ?_, rfl, rfl, rfl,
          Or.inr ⟨rfl, np, rfl, rfl⟩⟩
        simp [releaseInPool]
      | error e =>
        exfalso
        simp [releaseInPool] at hok
  | cons q pre ih =>
    have hq : q.page ≠ p.page := hpre q (List.mem_cons_self q pre)
    have hpre' : ∀ r ∈ pre, r.page ≠ p.page := fun r hr => hpre r (List.mem_cons_of_mem q hr)
    have hok' : (releaseInPool p.page resetOk rn now (pre ++ p :: suf)).2 = Except.ok () := by
      simp only [List.cons_append, releaseInPool, if_neg hq] at hok
      exact hok
    obtain ⟨p', h1, h2, h3, h4, h5⟩ := ih hpre' hok'
    exact ⟨p', by simp [releaseInPool, hq, h1], h2, h3, h4, h5⟩

/-- Witness for releasePage_slot_usable: releasing the only slot, with
the reset succeeding. -/
theorem releasePage_slot_usable_witness :
    ∃ p', (releaseInPool 5 true (Except.ok 9) 3
        ([] ++ ({ page := 5, inUse := true, lastUsed := 0, id := "page_0" } : PooledPage) :: [])).1
        = [] ++ p' :: []
      ∧ p'.inUse = false ∧ p'.lastUsed = 3 ∧ p'.id = "page_0"
      ∧ ((true = true ∧ p'.page = 5)
         ∨ (true = false ∧ ∃ np, (Except.ok 9 : Except String Nat) = Except.ok np ∧ p'.page = np)) :=
  releasePage_slot_usable [] [] { page := 5, inUse := true, lastUsed := 0, id := "page_0" }
    true (Except.ok 9) 3 (by simp) rfl

/-- Slots whose page differs from the failed one are untouched by
replaceInPool, position by position, on every replacement outcome. -/
theorem replaceInPool_frame (h : Nat) (rn : Except String Nat) (now : Nat) :
    ∀ (pool : List PooledPage) (i : Nat) (p : PooledPage),
      pool[i]? = some p → p.page ≠ h → ((replaceInPool h rn now pool).1)[i]? = some p := by
  intro pool
  induction pool with
  | nil => intro i p hp _; simp at hp
  | cons q rest ih =>
    intro i p hp hne
    by_cases hq : q.page = h
    · cases rn with
      | ok np =>
        cases i with
        | zero =>
          simp only [List.getElem?_cons_zero, Option.some.injEq] at hp
          subst hp
          exact absurd hq hne
        | succ j =>
          simp only [List.getElem?_cons_succ] at hp
          simp [replaceInPool, hq, hp]
      | error e =>
        simp [replaceInPool, hq, hp]
    · cases i with
      | zero =>
        simp only [List.getElem?_cons_zero, Option.some.injEq] at hp
        subst hp
        simp [replaceInPool, hq]
      | succ j =>
        simp only [List.getElem?_cons_succ] at hp
        simp only [replaceInPool, if_neg hq, List.getElem?_cons_succ]
        exact ih j p hp hne

/-- Claim C7: an individual page failure notification replaces only the
slot owning that page: the browser connection, the connecting flag, the
keepalive timer, and the slot count are unchanged (no pool teardown),
and every slot whose page differs from the failed one keeps exactly its
entry — handle, inUse flag and lastUsed — at its position; replacement
failures are swallowed, so the handler never rejects. -/
theorem pageDisconnection_isolates_slot (s : PoolState) (h now : Nat) (rn : Except String Nat) :
    (handlePageDisconnection s h rn now).browser = s.browser
    ∧ (handlePageDisconnection s h rn now).connecting = s.connecting
    ∧ (handlePageDisconnection s h rn now).keepaliveInterval = s.keepaliveInterval
    ∧ (handlePageDisconnection s h rn now).pool.length = s.pool.length
    ∧ ∀ (i : Nat) (p : PooledPage), s.pool[i]? = some p → p.page ≠ h →
        (handlePageDisconnection s h rn now).pool[i]? = some p := by
  refine ⟨rfl, rfl, rfl, replaceInPool_length h rn now s.pool, ?_⟩
  intro i p hp hne
  exact replaceInPool_frame h rn now s.pool i p hp hne

/-- A two-slot pool state: page 5 free, page 6 in use. -/
def twoSlotState : PoolState :=
  { browser := some 1,
    pool := [{ page := 5, inUse := false, lastUsed := 0, id := "page_0" },
             { page := 6, inUse := true, lastUsed := 0, id := "page_1" }],
    connecting := false, keepaliveInterval := some 0 }

/-- Witness for pageDisconnection_isolates_slot: page 6 fails and is
replaced; slot 0 (page 5) is untouched and nothing is torn down. -/
theorem pageDisconnection_isolates_slot_witness :
    (handlePageDisconnection twoSlotState 6 (Except.ok 9) 4).browser = twoSlotState.browser
    ∧ (handlePageDisconnection twoSlotState 6 (Except.ok 9) 4).pool.length
        = twoSlotState.pool.length
    ∧ (handlePageDisconnection twoSlotState 6 (Except.ok 9) 4).pool[0]?
        = some { page := 5, inUse := false, lastUsed := 0, id := "page_0" } := by
  have H := pageDisconnection_isolates_slot twoSlotState 6 4 (Except.ok 9)
  exact ⟨H.1, H.2.2.2.1,
    H.2.2.2.2 0 { page := 5, inUse := false, lastUsed := 0, id := "page_0" } rfl (by decide)⟩

/-- A pool containing a free slot always yields to acquire's scan. -/
theorem markFirstFree_of_free (now : Nat) :
    ∀ pool : List PooledPage, (∃ q ∈ pool, q.inUse = false) →
      ∃ r, markFirstFree now pool = some r := by
  intro pool
  induction pool with
  | nil =>
    rintro ⟨q, hq, _⟩
    simp at hq
  | cons p rest ih =>
    rintro ⟨q, hq, hfree⟩
    by_cases hp : p.inUse = true
    · have hqr : q ∈ rest := by
        rcases List.mem_cons.mp hq with h | h
        · subst h; simp [hfree] at hp
        · exact h
      obtain ⟨r0, hr0⟩ := ih ⟨q, hqr, hfree⟩
      exact ⟨(r0.1, p :: r0.2), by simp [markFirstFree, hp, hr0]⟩
    · exact ⟨(p.page, { p with inUse := true, lastUsed := now } :: rest),
        by simp [markFirstFree, hp]⟩

/-- replacePage on the slot owning page h installs the fresh page. -/
theorem replaceInPool_found (pre suf : List PooledPage) (p : PooledPage) (np now : Nat)
    (hpre : ∀ q ∈ pre, q.page ≠ p.page) :
    (replaceInPool p.page (Except.ok np) now (pre ++ p :: suf)).1
      = pre ++ ({ page := np, inUse := false, lastUsed := now, id := p.id } : PooledPage) :: suf := by
  induction pre with
  | nil => simp [replaceInPool]
  | cons q pre ih =>
    have hq : q.page ≠ p.page := hpre q (List.mem_cons_self q pre)
    have hpre' : ∀ r ∈ pre, r.page ≠ p.page := fun r hr => hpre r (List.mem_cons_of_mem q hr)
    simp [replaceInPool, hq, ih hpre']

/-- Claim C10: a successful replacePage on the slot owning page h sets
that slot's inUse to false unconditionally — in particular even when
the slot was marked inUse by an in-flight action (the statement holds
for every p, including p.inUse = true) — so immediately afterwards
acquire's scan finds a free slot and the replaced slot is acquirable by
another caller before the original action has released it. -/
theorem replacePage_clears_inUse (pre suf : List PooledPage) (p : PooledPage)
    (np now now2 : Nat) (hpre : ∀ q ∈ pre, q.page ≠ p.page) :
    (replaceInPool p.page (Except.ok np) now (pre ++ p :: suf)).1
      = pre ++ ({ page := np, inUse := false, lastUsed := now, id := p.id } : PooledPage) :: suf
    ∧ ∃ r, markFirstFree now2 ((replaceInPool p.page (Except.ok np) now (pre ++ p :: suf)).1)
        = some r := by
  have h1 := replaceInPool_found pre suf p np now hpre
  refine ⟨h1, ?_⟩
  rw [h1]
  exact markFirstFree_of_free now2 _
    ⟨{ page := np, inUse := false, lastUsed := now, id := p.id },
     by simp, rfl⟩

/-- Witness for replacePage_clears_inUse: the only slot is inUse when
its page fails; after replacement it is free and scannable. -/
theorem replacePage_clears_inUse_witness :
    (replaceInPool 5 (Except.ok 9) 3
        ([] ++ ({ page := 5, inUse := true, lastUsed := 0, id := "page_0" } : PooledPage) :: [])).1
      = [] ++ ({ page := 9, inUse := false, lastUsed := 3, id := "page_0" } : PooledPage) :: []
    ∧ ∃ r, markFirstFree 4 ((replaceInPool 5 (Except.ok 9) 3
        ([] ++ ({ page := 5, inUse := true, lastUsed := 0, id := "page_0" } : PooledPage) :: [])).1)
        = some r :=
  replacePage_clears_inUse [] [] { page := 5, inUse := true, lastUsed := 0, id := "page_0" }
    9 3 4 (by simp)

/-- A connected state whose pool is poolOneFree. -/
def oneFreeState : PoolState :=
  { browser := some 1, pool := poolOneFree, connecting := false, keepaliveInterval := some 0 }

/-- Claim C1: when withPage runs with a browser present and the acquire
scan succeeding immediately (a free slot exists), then — whether the
action resolves or rejects — exactly one pool acquire and exactly one
pool release occur, in that order, and the release is performed before
the action's outcome is propagated: when the release completes normally
the caller gets exactly the action's outcome, and when the release
itself fails that error supersedes it (JS finally semantics). -/
theorem withPage_scoped (A : Type) (s : PoolState) (env : InitEnv) (perf wall f now : Nat)
    (actionOutcome : Except String A) (resetOk : Bool) (rn : Except String Nat)
    (pg : Nat) (pool2 : List PooledPage)
    (hb : s.browser.isSome = true)
    (hfree : markFirstFree wall s.pool = some (pg, pool2)) :
    (withPage s env perf wall (f + 1) actionOutcome resetOk rn now).2.2
      = [PoolEvent.acquired pg, PoolEvent.released pg]
    ∧ ((withPage s env perf wall (f + 1) actionOutcome resetOk rn now).2.2).countP
        isAcquiredEvent = 1
    ∧ ((withPage s env perf wall (f + 1) actionOutcome resetOk rn now).2.2).countP
        isReleasedEvent = 1
    ∧ ((releaseInPool pg resetOk rn now pool2).2 = Except.ok () →
        (withPage s env perf wall (f + 1) actionOutcome resetOk rn now).2.1 = actionOutcome)
    ∧ (∀ e, (releaseInPool pg resetOk rn now pool2).2 = Except.error e →
        (withPage s env perf wall (f + 1) actionOutcome resetOk rn now).2.1
          = Except.error e) := by
  have hnone : s.browser.isNone = false := by
    cases hs : s.browser
    · rw [hs] at hb; simp at hb
    · rfl
  have hacq : acquireAux perf wall (f + 1) s.pool 0 = (pool2, Except.ok pg, 0) := by
    unfold acquireAux
    simp only [Nat.mul_zero, Nat.add_zero]
    rw [hfree]
  cases hrel : (releaseInPool pg resetOk rn now pool2).2 with
  | ok u =>
    have hw : withPage s env perf wall (f + 1) actionOutcome resetOk rn now
        = ({ s with pool := (releaseInPool pg resetOk rn now pool2).1 }, actionOutcome,
           [PoolEvent.acquired pg, PoolEvent.released pg]) := by
      unfold withPage
      rw [hnone]
      simp only [Bool.false_eq_true, if_false]
      simp only [acquirePage, hacq, releasePage]
      rw [hrel]
    refine ⟨by rw [hw], by rw [hw]; rfl, by rw [hw]; rfl, fun _ => by rw [hw], ?_⟩
    intro e he
    cases he
  | error e0 =>
    have hw : withPage s env perf wall (f + 1) actionOutcome resetOk rn now
        = ({ s with pool := (releaseInPool pg resetOk rn now pool2).1 }, Except.error e0,
           [PoolEvent.acquired pg, PoolEvent.released pg]) := by
      unfold withPage
      rw [hnone]
      simp only [Bool.false_eq_true, if_false]
      simp only [acquirePage, hacq, releasePage]
      rw [hrel]
    refine ⟨by rw [hw], by rw [hw]; rfl, by rw [hw]; rfl, ?_, ?_⟩
    · intro hcontra
      cases hcontra
    · intro e he
      injection he with h2
      subst h2
      rw [hw]

/-- Witness for withPage_scoped: a one-slot connected pool, an action
resolving with 42, the reset succeeding. -/
theorem withPage_scoped_witness :
    (withPage oneFreeState envAllOk 0 0 1 (Except.ok 42 : Except String Nat) true
        (Except.ok 9) 1).2.2
      = [PoolEvent.acquired 5, PoolEvent.released 5]
    ∧ (withPage oneFreeState envAllOk 0 0 1 (Except.ok 42 : Except String Nat) true
        (Except.ok 9) 1).2.1 = Except.ok 42 := by
  have H := withPage_scoped Nat oneFreeState envAllOk 0 0 0 1 (Except.ok 42) true (Except.ok 9)
    5 [{ page := 5, inUse := true, lastUsed := 0, id := "page_0" }] rfl rfl
  exact ⟨H.1, H.2.2.2.1 rfl⟩

/-- A retry run that hits a success stops there: with attempts before
index n all failing and attempt n succeeding within budget, the driver
returns that success after n + 1 attempts. -/
theorem retryRun_success {A : Type} (outcomes : Nat → Except String A) :
    ∀ (n r k : Nat) (v : A), n ≤ r → outcomes (k + n) = Except.ok v →
      (∀ j, j < n → ∃ e, outcomes (k + j) = Except.error e) →
      retryRun outcomes k r = (Except.ok v, k + n + 1) := by
  intro n
  induction n with
  | zero =>
    intro r k v _ hok _
    have hok' : outcomes k = Except.ok v := by simpa using hok
    cases r with
    | zero => simp [retryRun, hok']
    | succ r' => simp [retryRun, hok']
  | succ n ih =>
    intro r k v hle hok hfail
    obtain ⟨e0, he0⟩ := hfail 0 (Nat.succ_pos n)
    have he0' : outcomes k = Except.error e0 := by simpa using he0
    cases r with
    | zero => omega
    | succ r' =>
      have step : retryRun outcomes k (r' + 1) = retryRun outcomes (k + 1) r' := by
        simp [retryRun, he0']
      rw [step]
      have hok2 : outcomes (k + 1 + n) = Except.ok v := by
        rw [show k + 1 + n = k + (n + 1) by omega]
        exact hok
      have hfail2 : ∀ j, j < n → ∃ e, outcomes (k + 1 + j) = Except.error e := by
        intro j hj
        have h2 := hfail (j + 1) (by omega)
        rw [show k + (j + 1) = k + 1 + j by omega] at h2
        exact h2
      rw [ih r' (k + 1) v (by omega) hok2 hfail2]
      rw [show k + 1 + n + 1 = k + (n + 1) + 1 by omega]

/-- A retry run whose every attempt within budget fails returns the
last attempt's error after consuming the full budget. -/
theorem retryRun_allfail {A : Type} (outcomes : Nat → Except String A) :
    ∀ (r k : Nat), (∀ j, j ≤ r → ∃ e, outcomes (k + j) = Except.error e) →
      retryRun outcomes k r = (outcomes (k + r), k + r + 1) := by
  intro r
  induction r with
  | zero => intro k _; simp [retryRun]
  | succ r' ih =>
    intro k hfail
    obtain ⟨e0, he0⟩ := hfail 0 (Nat.zero_le _)
    have he0' : outcomes k = Except.error e0 := by simpa using he0
    have step : retryRun outcomes k (r' + 1) = retryRun outcomes (k + 1) r' := by
      simp [retryRun, he0']
    rw [step]
    have hfail2 : ∀ j, j ≤ r' → ∃ e, outcomes (k + 1 + j) = Except.error e := by
      intro j hj
      have h2 := hfail (j + 1) (by omega)
      rw [show k + (j + 1) = k + 1 + j by omega] at h2
      exact h2
    rw [ih (k + 1) hfail2]
    rw [show k + 1 + r' = k + (r' + 1) by omega]

/-- A retry run consumes at most its attempt budget. -/
theorem retryRun_attempts {A : Type} (outcomes : Nat → Except String A) :
    ∀ (r k : Nat), (retryRun outcomes k r).2 ≤ k + r + 1 := by
  intro r
  induction r with
  | zero => intro k; simp [retryRun]
  | succ r' ih =>
    intro k
    cases ho : outcomes k with
    | ok v => simp [retryRun, ho]
    | error e =>
      have step : retryRun outcomes k (r' + 1) = retryRun outcomes (k + 1) r' := by
        simp [retryRun, ho]
      rw [step]
      have := ih (k + 1)
      omega

/-- Claim C8: every generatePdf request is answered with exactly one
JSON-RPC response at HTTP 200: the capture is retried up to 5 attempts
(RPC_RETRIES = 4 retries) with zero delay between attempts; the first
success yields the single result response carrying the base64 PDF, and
exhaustion of all 5 attempts yields the single error response with
code -32603 carrying the last attempt's error message; intermediate
failures never produce responses of their own. -/
theorem rpc_single_response (id : RpcId) (outcomes : Nat → Except String (List Nat)) :
    (handleRequest "generatePdf" id outcomes).1 = 200
    ∧ (handleRequest "generatePdf" id outcomes).2.length = 1
    ∧ (∀ (n : Nat) (pdf : List Nat), n ≤ RPC_RETRIES → outcomes n = Except.ok pdf →
        (∀ j, j < n → ∃ e, outcomes j = Except.error e) →
        (handleRequest "generatePdf" id outcomes).2
          = [RpcResponse.result (base64Encode pdf) id])
    ∧ (∀ eLast, (∀ j, j ≤ RPC_RETRIES → ∃ e, outcomes j = Except.error e) →
        outcomes RPC_RETRIES = Except.error eLast →
        (handleRequest "generatePdf" id outcomes).2 = [RpcResponse.err (-32603) eLast id])
    ∧ (retryRun outcomes 0 RPC_RETRIES).2 ≤ RPC_RETRIES + 1
    ∧ (∀ n, retryDelay 0 0 2 n = 0) := by
  refine ⟨?_, ?_, ?_, ?_, ?_, ?_⟩
  · cases hr : (retryRun outcomes 0 RPC_RETRIES).1 <;> simp [handleRequest, hr]
  · cases hr : (retryRun outcomes 0 RPC_RETRIES).1 <;> simp [handleRequest, hr]
  · intro n pdf hle hok hfail
    have hok' : outcomes (0 + n) = Except.ok pdf := by simpa using hok
    have hfail' : ∀ j, j < n → ∃ e, outcomes (0 + j) = Except.error e := by
      intro j hj; simpa using hfail j hj
    have hrun := retryRun_success outcomes n RPC_RETRIES 0 pdf hle hok' hfail'
    simp [handleRequest, hrun]
  · intro eLast hfail hlast
    have hfail' : ∀ j, j ≤ RPC_RETRIES → ∃ e, outcomes (0 + j) = Except.error e := by
      intro j hj; simpa using hfail j hj
    have hrun := retryRun_allfail outcomes RPC_RETRIES 0 hfail'
    have hlast' : outcomes (0 + RPC_RETRIES) = Except.error eLast := by simpa using hlast
    rw [hlast'] at hrun
    simp [handleRequest, hrun]
  · have := retryRun_attempts outcomes RPC_RETRIES 0
    simpa using this
  · intro n; simp [retryDelay]

/-- Witness for rpc_single_response: every capture attempt fails with
the same navigation error; the caller gets the single -32603 error
response carrying that message, at HTTP 200. -/
theorem rpc_single_response_witness :
    (handleRequest "generatePdf" (RpcId.num 1) (fun _ => Except.error "nav failed")).1 = 200
    ∧ (handleRequest "generatePdf" (RpcId.num 1) (fun _ => Except.error "nav failed")).2
        = [RpcResponse.err (-32603) "nav failed" (RpcId.num 1)] := by
  have H := rpc_single_response (RpcId.num 1) (fun _ => Except.error "nav failed")
  exact ⟨H.1, H.2.2.2.1 "nav failed" (fun j _ => ⟨"nav failed", rfl⟩) rfl⟩

/-- Witness for initPool_idempotent at a Connected state. -/
theorem initPool_idempotent_witness :
    initPool { browser := some 1, pool := [], connecting := false, keepaliveInterval := some 0 }
        envAllOk
      = ({ browser := some 1, pool := [], connecting := false, keepaliveInterval := some 0 },
         Except.ok ())
    ∧ initPool
        (initPool { browser := some 1, pool := [], connecting := false, keepaliveInterval := some 0 }
            envAllOk).1 envPageFail
      = initPool { browser := some 1, pool := [], connecting := false, keepaliveInterval := some 0 }
          envPageFail :=
  initPool_idempotent _ envAllOk envPageFail (Or.inl rfl)
